import Mathlib

/-!
Shallow embedding of the `pointcloud` repository (src/point_cloud/core.py and
src/docker/cpoints.py) and verification of the frozen claims about it.

Modelling conventions, used throughout:
* numpy double-precision floats are idealized as real numbers `ℝ`; parsed
  decimal tokens are represented exactly as rationals `ℚ` (every decimal
  literal is a rational).  Division by zero in numpy produces IEEE inf/NaN
  values *without raising*; `ℝ` cannot represent NaN, so Mathlib's total
  division (`x / 0 = 0`) stands in for it.  This junk-value convention never
  affects *whether* a computation raises, which is what the error-handling
  claims are about, only which junk value appears.
* a pandas DataFrame cell is a `Cell`: a parsed number, a missing value
  (IEEE NaN, as pandas stores missing fields), or an unparsed string.
  pandas decides numeric conversion column-wise; the per-cell model below
  has exactly the same error behaviour (a column fails float conversion
  iff it contains a string cell) and differs only in unobservable values
  inside columns that already cause a TypeError.
* Python functions that can raise are embedded as `Except`-valued
  functions; functions that contain no raise site (and call only
  non-raising numpy float arithmetic) are embedded as total functions.
-/

namespace PointCloud

deriving instance DecidableEq for Except

/-- A 3D point, as a coordinate vector (source: one row of a numpy `(n,3)`
array of x, y, z columns). -/
abbrev Point3 := Fin 3 → ℝ

/-- One pandas cell as produced by `pd.read_csv`: a parsed number, a missing
value (NaN), or a non-numeric string. -/
inductive Cell where
  | num (q : ℚ)
  | nan
  | str (s : String)
deriving DecidableEq

/-- One row of the DataFrame loaded by `load_input_data`, with the column
names given there: `["label", "x", "y", "z"]` (core.py line 26). -/
structure Row where
  label : Cell
  x : Cell
  y : Cell
  z : Cell
deriving DecidableEq

/-- The error `pd.read_csv` raises (pandas `ParserError`): a data line has
more fields than the four named columns. -/
inductive LoadErr where
  | tooManyFields
deriving DecidableEq

/-- Errors arising in the `calculate_C_points` pipeline at runtime:
pandas ParserError at load; TypeError when a mean is taken over a column
holding strings; numpy ValueError from `np.apply_along_axis` over an array
with an empty iteration dimension; scipy QhullError from `ConvexHull` on a
degenerate point set. -/
inductive PipeErr where
  | parseError
  | typeError
  | applyEmpty
  | qhullError
deriving DecidableEq

/-! ### Loader (core.py `load_input_data`, lines 21-27)

`pd.read_csv(path, delimiter=" ", names=["label","x","y","z"])` splits each
line on every single space character (empty fields between consecutive
spaces included), skips blank lines, pads missing trailing fields with NaN,
parses numeric-looking tokens as floats, and raises a ParserError when a
line has more fields than expected.  The model covers decimal tokens of the
form `[+-]?digits`, `[+-]?digits.digits`, `[+-]?.digits`, `[+-]?digits.`;
other pandas-recognized spellings (exponents, `inf`, `nan`) are outside the
modelled fragment and load as string cells, which is conservative for every
claim below (no claim's input uses them).  The pandas index-inference path
taken when the *first* row is wider than the named columns is outside the
model; theorems about the loader restrict to files whose rows have at most
four fields except where a wider row is exactly what is being exercised. -/

/-- Split a character list at every space character, keeping empty fields
(the behaviour of the pandas C parser with `delimiter=" "`). -/
def splitAux : List Char → List Char → List (List Char)
  | [], acc => [acc.reverse]
  | c :: cs, acc => if c = ' ' then acc.reverse :: splitAux cs [] else splitAux cs (c :: acc)

/-- Fields of one input line: split on every single space. -/
def splitFields (l : List Char) : List (List Char) := splitAux l []

/-- Accumulate decimal digits into a natural number; fails on a non-digit. -/
def parseNatAux : List Char → ℕ → Option ℕ
  | [], acc => some acc
  | c :: cs, acc => if c.isDigit then parseNatAux cs (10 * acc + (c.toNat - 48)) else none

/-- Parse a non-empty all-digit token as a natural number. -/
def parseNat? (cs : List Char) : Option ℕ :=
  match cs with
  | [] => none
  | _ => parseNatAux cs 0

/-- Parse an unsigned decimal token (`digits`, `digits.digits`, `.digits`,
`digits.`) as the exact rational it denotes. -/
def parsePos? (cs : List Char) : Option ℚ :=
  match cs.splitOn '.' with
  | [ip] => (parseNat? ip).map (fun n => (n : ℚ))
  | [ip, fp] =>
    match ip, fp with
    | [], [] => none
    | _, _ =>
      match (match ip with | [] => some 0 | _ => parseNat? ip),
            (match fp with | [] => some 0 | _ => parseNat? fp) with
      | some n, some f => some ((n : ℚ) + (f : ℚ) / (10 : ℚ) ^ fp.length)
      | _, _ => none
  | _ => none

/-- Parse an optionally signed decimal token. -/
def parseDecimal? (cs : List Char) : Option ℚ :=
  match cs with
  | '-' :: rest => (parsePos? rest).map (fun q => -q)
  | '+' :: rest => parsePos? rest
  | _ => parsePos? cs

/-- Convert one field to a pandas cell: empty field is a missing value
(NaN), a decimal token parses as a number, anything else stays a string. -/
def cellOfToken (t : List Char) : Cell :=
  match t with
  | [] => Cell.nan
  | _ =>
    match parseDecimal? t with
    | some q => Cell.num q
    | none => Cell.str (String.mk t)

/-- Parse one non-blank input line into a `Row`: up to four fields, missing
trailing fields padded with NaN, more than four fields a ParserError. -/
def parseLine (l : List Char) : Except LoadErr Row :=
  match (splitFields l).map cellOfToken with
  | [a] => Except.ok ⟨a, Cell.nan, Cell.nan, Cell.nan⟩
  | [a, b] => Except.ok ⟨a, b, Cell.nan, Cell.nan⟩
  | [a, b, c] => Except.ok ⟨a, b, c, Cell.nan⟩
  | [a, b, c, d] => Except.ok ⟨a, b, c, d⟩
  | _ => Except.error LoadErr.tooManyFields

/-- Embedding of `load_input_data` (core.py lines 21-27): read the lines of
the file as a DataFrame with columns `label, x, y, z`, skipping blank
lines as `pd.read_csv` does. -/
def load_input_data (lines : List String) : Except LoadErr (List Row) :=
  (lines.filter (fun l => !l.data.isEmpty)).mapM (fun l => parseLine l.data)

/-! ### Point selector (core.py `get_labeled_points`, lines 40-47) -/

/-- Elementwise comparison `input_data["label"] == label` on one cell: only
a string cell equal to the target compares true (a float or NaN label cell
never equals a string in pandas). -/
def cellEqStr (c : Cell) (s : String) : Bool :=
  match c with
  | Cell.str t => t == s
  | _ => false

/-- Embedding of `get_labeled_points` (core.py lines 40-47): build the
boolean mask `input_data["label"] == label`, keep the rows where the mask
is true (pandas boolean indexing), and take the `x, y, z` columns. -/
def get_labeled_points (rows : List Row) (label : String) : List (Cell × Cell × Cell) :=
  (((rows.zip (rows.map (fun r => cellEqStr r.label label))).filter
      (fun q => q.2)).map (fun q => q.1)).map (fun r => (r.x, r.y, r.z))

/-! ### Geometry (core.py `get_centroid` lines 30-37, `calculate_C_point`
lines 50-59) -/

/-- Sum of a list of reals as numpy reduces a column (a fold from zero). -/
noncomputable def npSum (l : List ℝ) : ℝ := l.foldl (· + ·) 0

/-- numpy `ndarray.mean`: sum of the entries divided by their count.  On an
empty column this is 0/0, which numpy reports as NaN *without raising*
(a RuntimeWarning only); the embedding's total division returns the junk
value 0 there. -/
noncomputable def npMean (l : List ℝ) : ℝ := npSum l / l.length

/-- Embedding of `get_centroid` (core.py lines 30-37): the mean of each
coordinate column, `np.array([points[:,i].mean() for i in range(3)])`.
(The source takes the column count from `points.shape[1]`, which is 3 for
every array the pipeline passes; the embedding fixes the dimension at 3.) -/
noncomputable def get_centroid (points : List Point3) : Point3 :=
  fun i => npMean (points.map (fun p => p i))

/-- `np.linalg.norm` of a 3-vector: the Euclidean (L2) norm. -/
noncomputable def npNorm (v : Point3) : ℝ :=
  Real.sqrt (v 0 ^ 2 + v 1 ^ 2 + v 2 ^ 2)

/-- Embedding of `calculate_C_point` (core.py lines 50-59):
`outwards_direction = (B_point - centroid) / np.linalg.norm(B_point - centroid)`
then `C_point = B_point + outwards_direction * distance`.  The source has no
degeneracy check and no raise site: numpy float division by zero yields
inf/NaN without raising, so the embedding is a total function (with
Mathlib's `x / 0 = 0` standing in for the NaN components). -/
noncomputable def calculate_C_point (B_point centroid : Point3) (distance : ℝ) : Point3 :=
  let outwards_direction : Point3 :=
    fun i => (B_point i - centroid i) / npNorm (fun j => B_point j - centroid j)
  fun i => B_point i + outwards_direction i * distance

/-! ### Spec-side definitions (for refinement comparison)

These two definitions follow the *spec's words*, not the source; they exist
only to state where the source deviates from the spec. -/

/-- Failure modes the spec's error taxonomy (spec.md section 7) assigns to
the geometric core. -/
inductive GeomErr where
  | degenerateGeometry
  | invalidInput
deriving DecidableEq

open Classical in
/-- The Outward Vector Calculator as the spec words it (spec.md section
4.4): fail with DegenerateGeometryError when `magnitude(direction) == 0`,
otherwise return `b + distance * (direction / magnitude(direction))`. -/
noncomputable def calculate_C_point_spec (b centroid : Point3) (distance : ℝ) :
    Except GeomErr Point3 :=
  if npNorm (fun j => b j - centroid j) = 0 then Except.error GeomErr.degenerateGeometry
  else Except.ok (fun i =>
    b i + distance * ((b i - centroid i) / npNorm (fun j => b j - centroid j)))

/-- The Centroid Calculator as the spec words it (spec.md section 4.2):
fail with InvalidInputError on an empty sequence, otherwise the
component-wise arithmetic mean. -/
noncomputable def get_centroid_spec (points : List Point3) : Except GeomErr Point3 :=
  if points.isEmpty then Except.error GeomErr.invalidInput
  else Except.ok (fun i => (points.map (fun p => p i)).sum / points.length)

/-! ### Pipeline (core.py `calculate_C_points`, lines 128-152) -/

/-- Float value of a cell when the column converts to floats: numbers keep
their value, a missing value is IEEE NaN (junk 0 in the embedding), and a
string cell has no float value (its column stays `object` and taking a mean
over it raises a TypeError). -/
noncomputable def cellValR : Cell → Option ℝ
  | Cell.num q => some (q : ℝ)
  | Cell.nan => some 0
  | Cell.str _ => none

/-- Build a point from three coordinates. -/
noncomputable def mkPt (a b c : ℝ) : Point3 := ![a, b, c]

/-- Convert the `x, y, z` cells of a row list to a numpy float array, as
`df[["x","y","z"]].values` followed by column means does: if any cell is a
string the mean computation raises a TypeError. -/
noncomputable def colsToR (cols : List (Cell × Cell × Cell)) : Except PipeErr (List Point3) :=
  cols.mapM (fun t =>
    match cellValR t.1, cellValR t.2.1, cellValR t.2.2 with
    | some a, some b, some c => Except.ok (mkPt a b c)
    | _, _, _ => Except.error PipeErr.typeError)

/-- Modelled from the spec (section 4.5 and section 7), because scipy is
external to the repository: `scipy.spatial.ConvexHull` fails on a
degenerate 3D point set — fewer than 4 points, or all points lying in one
plane (not affinely independent). -/
def hullDegenerate (points : List Point3) : Prop :=
  points.length < 4 ∨
    ∃ nrm : Point3, ∃ a : ℝ, nrm ≠ 0 ∧
      ∀ p ∈ points, nrm 0 * p 0 + nrm 1 * p 1 + nrm 2 * p 2 = a

/-- Observable outcome of one `calculate_C_points` run: the contents of the
output data file if it was written, the plot file if it was written, and
the error the run aborted with, if any. -/
structure RunResult where
  dataFile : Option (List Point3)
  plotFile : Option Unit
  err : Option PipeErr

open Classical in
/-- Embedding of `calculate_C_points` (core.py lines 128-152), the full
pipeline: load the input, convert the coordinate columns and take the
centroid (a TypeError surfaces here if any coordinate cell is a string,
during `get_centroid` at line 140), select the B-labeled points,
apply `calculate_C_point` to each via `np.apply_along_axis` (which raises
ValueError when there are zero B rows), write the C points with
`np.savetxt`, and only then, when a plot path was supplied, render the plot
(where a degenerate hull raises QhullError — after the data file is already
written).  File writes are modelled as atomic. -/
noncomputable def calculate_C_points (lines : List String) (plotRequested : Bool)
    (distance : ℝ) : RunResult :=
  match load_input_data lines with
  | Except.error _ => ⟨none, none, some PipeErr.parseError⟩
  | Except.ok input_data =>
    match colsToR (input_data.map (fun r => (r.x, r.y, r.z))) with
    | Except.error e => ⟨none, none, some e⟩
    | Except.ok pts =>
      let centroid := get_centroid pts
      match colsToR (get_labeled_points input_data "B") with
      | Except.error e => ⟨none, none, some e⟩
      | Except.ok B_points =>
        if B_points.isEmpty then ⟨none, none, some PipeErr.applyEmpty⟩
        else
          let C_points := B_points.map (fun b => calculate_C_point b centroid distance)
          if plotRequested then
            if hullDegenerate pts then ⟨some C_points, none, some PipeErr.qhullError⟩
            else ⟨some C_points, some (), none⟩
          else ⟨some C_points, none, none⟩

/-! ### Helper lemmas -/

/-- The numpy fold-sum agrees with `List.sum`. -/
theorem npSum_eq_sum (l : List ℝ) : npSum l = l.sum := by
  unfold npSum
  rw [List.sum_eq_foldl]

/-- Boolean-mask indexing (zip with the mask, keep rows where the mask is
true) is list filtering. -/
theorem mask_filter {α : Type} (l : List α) (p : α → Bool) :
    ((l.zip (l.map p)).filter (fun q => q.2)).map (fun q => q.1) = l.filter p := by
  induction l with
  | nil => rfl
  | cons a t ih =>
    simp only [List.map_cons, List.zip_cons_cons, List.filter_cons]
    cases h : p a <;> simp [h, ih]

/-- Splitting never yields an empty field list. -/
theorem splitAux_ne_nil (cs acc : List Char) : splitAux cs acc ≠ [] := by
  induction cs generalizing acc with
  | nil => simp [splitAux]
  | cons c cs ih =>
    simp only [splitAux]
    split
    · simp
    · exact ih _

/-- A line with at most four fields parses into a row. -/
theorem parseLine_ok (l : List Char) (h : (splitFields l).length ≤ 4) :
    ∃ r, parseLine l = Except.ok r := by
  rcases hsp : splitFields l with _ | ⟨a, _ | ⟨b, _ | ⟨c, _ | ⟨d, _ | ⟨e, rest⟩⟩⟩⟩⟩
  · exact absurd hsp (splitAux_ne_nil l [])
  · exact ⟨_, by unfold parseLine; rw [hsp]; rfl⟩
  · exact ⟨_, by unfold parseLine; rw [hsp]; rfl⟩
  · exact ⟨_, by unfold parseLine; rw [hsp]; rfl⟩
  · exact ⟨_, by unfold parseLine; rw [hsp]; rfl⟩
  · rw [hsp] at h; simp at h

/-- A line with more than four fields is a ParserError. -/
theorem parseLine_err (l : List Char) (h : 4 < (splitFields l).length) :
    parseLine l = Except.error LoadErr.tooManyFields := by
  rcases hsp : splitFields l with _ | ⟨a, _ | ⟨b, _ | ⟨c, _ | ⟨d, _ | ⟨e, rest⟩⟩⟩⟩⟩ <;>
    rw [hsp] at h <;> simp at h
  all_goals unfold parseLine
  rw [hsp]
  rfl

/-- If every element maps to `ok`, `mapM` returns `ok` with one output per
input. -/
theorem mapM_ok_of_forall {α β : Type} (f : α → Except LoadErr β) (ls : List α)
    (h : ∀ l ∈ ls, ∃ r, f l = Except.ok r) :
    ∃ rows, ls.mapM f = Except.ok rows ∧ rows.length = ls.length := by
  induction ls with
  | nil => exact ⟨[], rfl, rfl⟩
  | cons a t ih =>
    obtain ⟨r, hr⟩ := h a (List.mem_cons_self a t)
    obtain ⟨rows, hrows, hlen⟩ := ih (fun l hl => h l (List.mem_cons_of_mem a hl))
    refine ⟨r :: rows, ?_, by simp [hlen]⟩
    rw [List.mapM_cons, hr, hrows]
    rfl

/-- If `mapM` returns `ok`, every element maps to `ok`. -/
theorem forall_ok_of_mapM {α β : Type} (f : α → Except LoadErr β) (ls : List α)
    (rows : List β) (h : ls.mapM f = Except.ok rows) :
    ∀ l ∈ ls, ∃ r, f l = Except.ok r := by
  induction ls generalizing rows with
  | nil => intro l hl; cases hl
  | cons a t ih =>
    rw [List.mapM_cons] at h
    intro l hl
    cases hfa : f a with
    | error e => rw [hfa] at h; exact Except.noConfusion h
    | ok r =>
      rw [hfa] at h
      have hbind : (t.mapM f).bind (fun bs => Except.ok (r :: bs)) = Except.ok rows := h
      cases hrest : t.mapM f with
      | error e => rw [hrest] at hbind; exact Except.noConfusion hbind
      | ok rs =>
        cases hl with
        | head => exact ⟨r, hfa⟩
        | tail _ hmem => exact ih rs hrest l hmem

/-- Concrete points used by the witnesses below. -/
noncomputable def bW : Point3 := mkPt 1 1 0

/-- Concrete centroid used by the witnesses below. -/
noncomputable def cW : Point3 := mkPt 1 (1/3) 0

theorem bW_ne_cW : bW ≠ cW := by
  intro h
  have h1 := congrFun h 1
  simp [bW, cW, mkPt] at h1

theorem npNorm_bW_cW : npNorm (fun j => bW j - cW j) = 2/3 := by
  have h0 : bW 0 - cW 0 = 0 := by simp [bW, cW, mkPt]
  have h1 : bW 1 - cW 1 = 2/3 := by simp [bW, cW, mkPt]; norm_num
  have h2 : bW 2 - cW 2 = 0 := by simp [bW, cW, mkPt]
  show Real.sqrt ((bW 0 - cW 0) ^ 2 + (bW 1 - cW 1) ^ 2 + (bW 2 - cW 2) ^ 2) = 2/3
  rw [h0, h1, h2, show (0:ℝ)^2 + (2/3)^2 + 0^2 = (2/3)^2 by norm_num,
    Real.sqrt_sq (by norm_num : (0:ℝ) ≤ 2/3)]

/-! ### The claims -/

/-- C1: for every B point `b`, centroid `c` with `b ≠ c`, and positive real
distance `d`, `calculate_C_point b c d` returns exactly
`b + d * (b - c) / magnitude (b - c)` (componentwise), where the magnitude
is the Euclidean norm `npNorm`. -/
theorem C1_calculate_C_point_formula (b c : Point3) (d : ℝ) (hbc : b ≠ c) (hd : 0 < d)
    (i : Fin 3) :
    calculate_C_point b c d i = b i + d * (b i - c i) / npNorm (fun j => b j - c j) := by
  show b i + (b i - c i) / npNorm (fun j => b j - c j) * d
      = b i + d * (b i - c i) / npNorm (fun j => b j - c j)
  ring

/-- Witness for C1 at `b = (1,1,0)`, `c = (1,1/3,0)`, `d = 1`: the
hypotheses hold and the second coordinate of the returned C point is 2
(the end-to-end example of spec.md section 8). -/
theorem C1_witness :
    bW ≠ cW ∧ (0:ℝ) < 1 ∧
      calculate_C_point bW cW 1 1 = bW 1 + 1 * (bW 1 - cW 1) / npNorm (fun j => bW j - cW j) ∧
      calculate_C_point bW cW 1 1 = 2 := by
  refine ⟨bW_ne_cW, one_pos, C1_calculate_C_point_formula bW cW 1 bW_ne_cW one_pos 1, ?_⟩
  rw [C1_calculate_C_point_formula bW cW 1 bW_ne_cW one_pos 1, npNorm_bW_cW]
  simp [bW, cW, mkPt]
  norm_num

/-- C2 counterexample: at `b = centroid = (0,0,0)`, `d = 1`, the source's
`calculate_C_point` does not fail — it has no raise site, and numpy float
division by zero does not raise — it returns a point (components NaN at
runtime, the junk value `b` itself under the embedding's total division),
while the spec-side definition demands a DegenerateGeometryError. -/
theorem C2_counterexample :
    calculate_C_point (mkPt 0 0 0) (mkPt 0 0 0) 1 = mkPt 0 0 0 ∧
    calculate_C_point_spec (mkPt 0 0 0) (mkPt 0 0 0) 1
      = Except.error GeomErr.degenerateGeometry := by
  have hn : npNorm (fun j => mkPt 0 0 0 j - mkPt 0 0 0 j) = 0 := by
    simp [npNorm]
  constructor
  · funext i
    show mkPt 0 0 0 i + (mkPt 0 0 0 i - mkPt 0 0 0 i) / _ * 1 = mkPt 0 0 0 i
    simp
  · unfold calculate_C_point_spec
    rw [if_pos hn]

/-- C2 amended: `calculate_C_point` performs no degeneracy check, so a call
with `b = centroid` raises nothing and returns a point; at runtime its
components are NaN (0/0 in IEEE arithmetic), which the embedding's total
division renders as `b` itself. -/
theorem C2_amended_returns_point (c : Point3) (d : ℝ) :
    calculate_C_point c c d = c := by
  funext i
  show c i + (c i - c i) / npNorm (fun j => c j - c j) * d = c i
  simp

/-- C3: for every non-empty list of 3D points, each coordinate of
`get_centroid` is the arithmetic mean (sum divided by count) of that
coordinate over all input points. -/
theorem C3_get_centroid_mean (points : List Point3) (h : points ≠ []) (i : Fin 3) :
    get_centroid points i = (points.map (fun p => p i)).sum / points.length := by
  unfold get_centroid npMean
  rw [npSum_eq_sum, List.length_map]

/-- Witness for C3 on `[(1,2,3), (3,4,5)]`: the list is non-empty, the mean
formula holds, and the x coordinate of the centroid evaluates to 2. -/
theorem C3_witness :
    ([mkPt 1 2 3, mkPt 3 4 5] : List Point3) ≠ [] ∧
      get_centroid [mkPt 1 2 3, mkPt 3 4 5] 0
        = (([mkPt 1 2 3, mkPt 3 4 5] : List Point3).map (fun p => p 0)).sum
            / ([mkPt 1 2 3, mkPt 3 4 5] : List Point3).length ∧
      get_centroid [mkPt 1 2 3, mkPt 3 4 5] 0 = 2 := by
  refine ⟨by simp, C3_get_centroid_mean _ (by simp) 0, ?_⟩
  rw [C3_get_centroid_mean _ (by simp) 0]
  simp [mkPt]
  norm_num

/-- C4 counterexample: on the empty point list the source's `get_centroid`
does not fail — `numpy.mean` of an empty slice emits a RuntimeWarning and
returns NaN without raising — it returns a point (junk 0 components under
the embedding's total division), while the spec-side definition demands an
InvalidInputError. -/
theorem C4_counterexample :
    get_centroid_spec ([] : List Point3) = Except.error GeomErr.invalidInput ∧
    get_centroid ([] : List Point3) = mkPt 0 0 0 := by
  constructor
  · simp [get_centroid_spec]
  · funext i
    fin_cases i <;> simp [get_centroid, npMean, npSum, mkPt]

/-- C4 amended: `get_centroid` on an empty sequence raises nothing and
returns a point; at runtime its components are NaN (mean of an empty
slice), which the embedding's total division renders as 0. -/
theorem C4_amended_no_failure :
    get_centroid ([] : List Point3) = mkPt 0 0 0 := by
  funext i
  fin_cases i <;> simp [get_centroid, npMean, npSum, mkPt]

/-- C5: `get_labeled_points` returns exactly the ordered subsequence of
coordinate triples of the rows whose label cell equals the target label
(pandas boolean-mask indexing equals list filtering, preserving relative
order), and when no row matches it returns the empty list without error. -/
theorem C5_get_labeled_points_filter (rows : List Row) (label : String) :
    get_labeled_points rows label
        = (rows.filter (fun r => cellEqStr r.label label)).map (fun r => (r.x, r.y, r.z)) ∧
      ((∀ r ∈ rows, cellEqStr r.label label = false) → get_labeled_points rows label = []) := by
  have h1 : get_labeled_points rows label
      = (rows.filter (fun r => cellEqStr r.label label)).map (fun r => (r.x, r.y, r.z)) := by
    unfold get_labeled_points
    rw [mask_filter]
  refine ⟨h1, fun h => ?_⟩
  have h2 : rows.filter (fun r => cellEqStr r.label label) = [] := by
    rw [List.filter_eq_nil_iff]
    intro a ha
    simp [h a ha]
  rw [h1, h2, List.map_nil]

/-- Witness for C5: selecting label "Q" from rows labeled "A" and "B"
yields the empty list. -/
theorem C5_witness :
    get_labeled_points
      [⟨Cell.str "A", Cell.num 0, Cell.num 0, Cell.num 0⟩,
       ⟨Cell.str "B", Cell.num 1, Cell.num 1, Cell.num 0⟩] "Q" = [] :=
  (C5_get_labeled_points_filter
    [⟨Cell.str "A", Cell.num 0, Cell.num 0, Cell.num 0⟩,
     ⟨Cell.str "B", Cell.num 1, Cell.num 1, Cell.num 0⟩] "Q").2 (by decide)

/-- C6: with distance 0 and `b ≠ centroid`, `calculate_C_point` returns `b`
itself, and (being a total function with no raise site) raises nothing. -/
theorem C6_zero_distance (b c : Point3) (h : b ≠ c) :
    calculate_C_point b c 0 = b := by
  funext i
  show b i + (b i - c i) / npNorm (fun j => b j - c j) * 0 = b i
  simp

/-- Witness for C6 at `b = (1,1,0)`, `c = (1,1/3,0)`. -/
theorem C6_witness : bW ≠ cW ∧ calculate_C_point bW cW 0 = bW :=
  ⟨bW_ne_cW, C6_zero_distance bW cW bW_ne_cW⟩

/-- C7: the pipeline writes the output data file only after the C points of
all B points have been computed: whenever a run's data file holds some list
`l`, the input loaded successfully, its coordinate columns converted, and
`l` is exactly the complete list of C points of all B-labeled rows — never
a proper prefix.  In particular every pre-write failure (ParserError,
TypeError, empty-B ValueError) leaves the data file unwritten. -/
theorem C7_write_only_complete (lines : List String) (plotRequested : Bool) (d : ℝ)
    (l : List Point3) (h : (calculate_C_points lines plotRequested d).dataFile = some l) :
    ∃ input_data pts B_points,
      load_input_data lines = Except.ok input_data ∧
      colsToR (input_data.map (fun r => (r.x, r.y, r.z))) = Except.ok pts ∧
      colsToR (get_labeled_points input_data "B") = Except.ok B_points ∧
      B_points ≠ [] ∧
      l = B_points.map (fun b => calculate_C_point b (get_centroid pts) d) := by
  unfold calculate_C_points at h
  split at h
  · simp at h
  next input_data hld =>
    split at h
    · simp at h
    next pts hc =>
      split at h
      · simp at h
      next B_points hb =>
        split at h
        · simp at h
        next hbe =>
          have hne : B_points ≠ [] := by
            intro hnil
            rw [hnil] at hbe
            exact hbe rfl
          refine ⟨input_data, pts, B_points, hld, hc, hb, hne, ?_⟩
          split at h
          · split at h <;> · simp at h; exact h.symm
          · simp at h; exact h.symm

/-- Input lines of the end-to-end example of spec.md section 8, used by the
pipeline witnesses. -/
noncomputable def demoLines : List String := ["A 0 0 0", "A 2 0 0", "B 1 1 0"]

/-- The coordinate array of the demo input (cast from the parsed
rationals). -/
noncomputable def demoPts : List Point3 :=
  [mkPt ((0:ℚ):ℝ) ((0:ℚ):ℝ) ((0:ℚ):ℝ), mkPt ((2:ℚ):ℝ) ((0:ℚ):ℝ) ((0:ℚ):ℝ),
   mkPt ((1:ℚ):ℝ) ((1:ℚ):ℝ) ((0:ℚ):ℝ)]

/-- The B-labeled coordinate array of the demo input. -/
noncomputable def demoB : List Point3 := [mkPt ((1:ℚ):ℝ) ((1:ℚ):ℝ) ((0:ℚ):ℝ)]

/-- Witness for C7: the demo run writes a data file and it is exactly the
complete C-point list of its one B point. -/
theorem C7_witness :
    (calculate_C_points demoLines false 1).dataFile
        = some (demoB.map (fun b => calculate_C_point b (get_centroid demoPts) 1)) ∧
      (∃ input_data pts B_points,
        load_input_data demoLines = Except.ok input_data ∧
        colsToR (input_data.map (fun r => (r.x, r.y, r.z))) = Except.ok pts ∧
        colsToR (get_labeled_points input_data "B") = Except.ok B_points ∧
        B_points ≠ [] ∧
        demoB.map (fun b => calculate_C_point b (get_centroid demoPts) 1)
          = B_points.map (fun b => calculate_C_point b (get_centroid pts) 1)) :=
  ⟨rfl, C7_write_only_complete demoLines false 1 _ rfl⟩

/-- C8 counterexample: the claim predicts a ParseError for a line with
fewer than four tokens and for a non-numeric coordinate token, but
`pd.read_csv` loads both without error — a three-token line is padded with
NaN, and a non-numeric z token is kept as a string cell. -/
theorem C8_counterexample :
    load_input_data ["A 1 2"]
        = Except.ok [⟨Cell.str "A", Cell.num 1, Cell.num 2, Cell.nan⟩] ∧
      load_input_data ["A 1 2 zz"]
        = Except.ok [⟨Cell.str "A", Cell.num 1, Cell.num 2, Cell.str "zz"⟩] := by
  constructor <;> decide

/-- C8 amended: `load_input_data` succeeds (with one row per non-blank
line) whenever every line has at most four space-separated fields —
missing trailing fields and non-numeric tokens never fail the load — and
it fails with the pandas ParserError exactly when some line has more than
four fields (modelled for files whose first row is not wider than the four
named columns; see the loader's module comment). -/
theorem C8_amended_loader (lines : List String) :
    ((∀ l ∈ lines, (splitFields l.data).length ≤ 4) →
       ∃ rows, load_input_data lines = Except.ok rows ∧
         rows.length = (lines.filter (fun l => !l.data.isEmpty)).length) ∧
    ((∃ l ∈ lines, 4 < (splitFields l.data).length) →
       load_input_data lines = Except.error LoadErr.tooManyFields) := by
  constructor
  · intro h
    exact mapM_ok_of_forall _ _ (fun l hl =>
      parseLine_ok l.data (h l (List.mem_of_mem_filter hl)))
  · rintro ⟨l, hl, hwide⟩
    cases hres : load_input_data lines with
    | error e => cases e; rfl
    | ok rows =>
      exfalso
      have hmemf : l ∈ lines.filter (fun l => !l.data.isEmpty) := by
        refine List.mem_filter.mpr ⟨hl, ?_⟩
        cases hld : l.data with
        | nil => rw [hld] at hwide; simp [splitFields, splitAux] at hwide
        | cons c cs => simp
      obtain ⟨r, hr⟩ := forall_ok_of_mapM _ _ rows hres l hmemf
      rw [parseLine_err l.data hwide] at hr
      exact Except.noConfusion hr

/-- Witness for C8 amended: a well-formed two-line file loads with two
rows, and a file whose second line has six fields fails with the
ParserError. -/
theorem C8_witness :
    (∀ l ∈ ["B 1 2 3", "A 4 5"], (splitFields l.data).length ≤ 4) ∧
      (∃ rows, load_input_data ["B 1 2 3", "A 4 5"] = Except.ok rows ∧
        rows.length
          = ((["B 1 2 3", "A 4 5"] : List String).filter (fun l => !l.data.isEmpty)).length) ∧
      load_input_data ["A 1 2 3", "A 1 2 3 4 5"] = Except.error LoadErr.tooManyFields :=
  ⟨by decide,
   (C8_amended_loader ["B 1 2 3", "A 4 5"]).1 (by decide),
   (C8_amended_loader ["A 1 2 3", "A 1 2 3 4 5"]).2 ⟨"A 1 2 3 4 5", by decide, by decide⟩⟩

/-- C9: when no output plot path is supplied, a pipeline run produces no
plot file, and it finishes without error exactly when it produced the
output data file (the absence of a plot path neither raises nor loses the
data file). -/
theorem C9_no_plot_path (lines : List String) (d : ℝ) :
    (calculate_C_points lines false d).plotFile = none ∧
      ((calculate_C_points lines false d).err = none ↔
        (calculate_C_points lines false d).dataFile.isSome = true) := by
  unfold calculate_C_points
  split
  · simp
  · split
    · simp
    · split
      · simp
      · split
        · simp
        · simp

/-- One coordinate column of a pointwise-translated point list sums to the
original column sum plus the count times the offset. -/
theorem sum_map_add_column (points : List Point3) (v : Point3) (i : Fin 3) :
    (points.map ((fun p => p i) ∘ (fun p j => p j + v j))).sum
      = (points.map (fun p => p i)).sum + points.length * v i := by
  induction points with
  | nil => simp
  | cons p t ih => simp [ih]; ring

/-- C10: the centroid is translation-equivariant — translating every input
point by `v` translates the centroid by `v` (for a non-empty input). -/
theorem C10_centroid_translation (points : List Point3) (h : points ≠ []) (v : Point3)
    (i : Fin 3) :
    get_centroid (points.map (fun p => fun j => p j + v j)) i = get_centroid points i + v i := by
  have hn : ((points.length : ℝ)) ≠ 0 := by
    simpa using fun h0 => h (List.length_eq_zero.mp h0)
  unfold get_centroid npMean
  rw [npSum_eq_sum, npSum_eq_sum, List.map_map, List.length_map, List.length_map,
    sum_map_add_column, add_div, mul_div_cancel_left₀ _ hn]

/-- Witness for C10 on the point `(1,2,3)` translated by `(10,0,0)`. -/
theorem C10_witness :
    ([mkPt 1 2 3] : List Point3) ≠ [] ∧
      get_centroid (([mkPt 1 2 3] : List Point3).map (fun p => fun j => p j + mkPt 10 0 0 j)) 0
        = get_centroid [mkPt 1 2 3] 0 + mkPt 10 0 0 0 :=
  ⟨by simp, C10_centroid_translation [mkPt 1 2 3] (by simp) (mkPt 10 0 0) 0⟩

end PointCloud
